import Mathlib

/-!
Verification of the HCP interaction agent (conversational CRM assistant).

Shallow embedding of the core pipeline: the Groq completion-gateway JSON
extraction chain (`app/utils/llm_utils.py`), the five task handler tools
(`app/agents/tools/*.py`) and the LangGraph orchestrator
(`app/agents/hcp_agent.py`).

External collaborators are parameters: the completion provider is an
oracle delivering either a response text or a raised-exception message,
and `json.loads` (Python standard library, restricted to object results
expressible in our value universe) is a parameter `parse`.  Python `dict`s
are association lists with first-match lookup and in-place update, which
matches Python dict insertion-order semantics for dicts built by
assignment.  Machine text is modelled as `List Char` (Python indexes
strings by code point).
-/

set_option autoImplicit false

namespace HCPAgent

/-! ## Python-style character-list primitives -/

/-- Backtick character (written numerically). -/
def btk : Char := Char.ofNat 96

/-- Opening curly brace character. -/
def lbr : Char := Char.ofNat 123

/-- Closing curly brace character. -/
def rbr : Char := Char.ofNat 125

/-- Does `needle` occur at the head of `hay`? (Python `str.startswith`). -/
def chPre : List Char → List Char → Bool
  | [], _ => true
  | _ :: _, [] => false
  | a :: as, b :: bs => a == b && chPre as bs

/-- First index `≥ i` at which `needle` occurs in `hay`, counting from `i`
(Python `str.find` restricted to the tail starting at `i`). -/
def chFindFrom (needle : List Char) : List Char → Nat → Option Nat
  | [], i => if chPre needle [] then some i else none
  | h :: t, i => if chPre needle (h :: t) then some i else chFindFrom needle t (i + 1)

/-- Python `needle in hay` substring test. -/
def chHas (hay needle : List Char) : Bool :=
  (chFindFrom needle hay 0).isSome

/-- Python `hay.rfind(c)`: index of the last occurrence of the character. -/
def chRlast (c : Char) (hay : List Char) : Option Nat :=
  ((hay.enum.filter (fun p => p.2 == c)).map (fun p => p.1)).getLast?

/-- Python slice `hay[a:b]` (clamping, as in Python). -/
def chSlice (hay : List Char) (a b : Nat) : List Char :=
  (hay.drop a).take (b - a)

/-- Whitespace characters stripped by Python `str.strip()` (ASCII part). -/
def pySpace (c : Char) : Bool :=
  c == ' ' || c == '\t' || c == '\n' || c == '\r' || c == '\x0b' || c == '\x0c'

/-- Python `str.strip()`. -/
def chStrip (l : List Char) : List Char :=
  ((l.dropWhile pySpace).reverse.dropWhile pySpace).reverse

/-- Python `sep.split` specialised to the fence delimiter of three backticks,
accumulating the current segment in reverse. Matches `str.split` on
non-overlapping occurrences scanned left to right. -/
def split3 : List Char → List Char → List (List Char)
  | a :: b :: c :: rest, acc =>
    if a == btk && b == btk && c == btk then acc.reverse :: split3 rest []
    else split3 (b :: c :: rest) (a :: acc)
  | h :: t, acc => split3 t (h :: acc)
  | [], acc => [acc.reverse]

/-- Substring containment on `String`s, via the code-point model. -/
def hasSubS (hay needle : String) : Bool :=
  chHas hay.toList needle.toList

/-! ## Python values and dicts -/

/-- The universe of Python values that flow through the pipeline:
strings, lists of strings, `None`, booleans and integers. -/
inductive Val where
  | vstr (s : String)
  | vlist (xs : List String)
  | vnone
  | vbool (b : Bool)
  | vint (n : Int)
  deriving DecidableEq, Repr, BEq

/-- Python truthiness of a `Val`. -/
def truthy : Val → Bool
  | Val.vstr s => !(s == "")
  | Val.vlist xs => !xs.isEmpty
  | Val.vnone => false
  | Val.vbool b => b
  | Val.vint n => !(n == 0)

/-- Python truthiness of an optional value (`dict.get` returning `None`
when the key is absent). -/
def truthyO : Option Val → Bool
  | none => false
  | some v => truthy v

/-- Python `str()` rendering of a `Val`, as used in f-strings. -/
def pyStrOf : Val → String
  | Val.vstr s => s
  | Val.vlist xs =>
      "[" ++ String.intercalate ", " (xs.map (fun x => "\x27" ++ x ++ "\x27")) ++ "]"
  | Val.vnone => "None"
  | Val.vbool b => if b then "True" else "False"
  | Val.vint n => toString n

/-- A Python dict: association list, first-match lookup. -/
def PyDict : Type := List (String × Val)

instance : DecidableEq PyDict := inferInstanceAs (DecidableEq (List (String × Val)))

instance : Repr PyDict := inferInstanceAs (Repr (List (String × Val)))

instance : Inhabited PyDict := ⟨([] : List (String × Val))⟩

/-- Python `d.get(k)` / `d[k]`. -/
def dget? : PyDict → String → Option Val
  | [], _ => none
  | (k, v) :: t, key => if k = key then some v else dget? t key

/-- Python `d.get(k, default)`. -/
def dgetD (d : PyDict) (k : String) (dflt : Val) : Val :=
  (dget? d k).getD dflt

/-- Python `k in d` key-membership test. -/
def dHasKey (d : PyDict) (k : String) : Bool :=
  (dget? d k).isSome

/-- Python `d[k] = v`: replace the first binding of `k` in place, else
append, matching dict insertion-order update. -/
def dset : PyDict → String → Val → PyDict
  | [], k, v => [(k, v)]
  | (k1, v1) :: t, k, v =>
    if k1 = k then (k1, v) :: t else (k1, v1) :: dset t k v

/-- Python `{**a, **b}`: start from `a` and assign every entry of `b`. -/
def pymerge (a b : PyDict) : PyDict :=
  b.foldl (fun acc kv => dset acc kv.1 kv.2) a

/-- The Python defaulting idiom of the tools:
`if not result.get(k): result[k] = v`. -/
def dDefault (d : PyDict) (k : String) (v : Val) : PyDict :=
  if truthyO (dget? d k) then d else dset d k v

/-- The key-membership defaulting idiom of `validate_hcp`:
`if k not in result: result[k] = v`. -/
def dDefaultKey (d : PyDict) (k : String) (v : Val) : PyDict :=
  if dHasKey d k then d else dset d k v

/-- Keys of a dict are pairwise distinct (always true of real Python
dicts; our association lists can in principle repeat keys). -/
def dNodupKeys (d : PyDict) : Prop :=
  (d.map Prod.fst).Nodup

instance (d : PyDict) : Decidable (dNodupKeys d) :=
  inferInstanceAs (Decidable (List.Nodup _))

/-! ## Completion gateway: `GroqLLMWrapper.extract_json`
(`app/utils/llm_utils.py`, lines 83-140)

`parse` abstracts `json.loads` restricted to object results expressible in
`Val` (`some` = parse succeeds, `none` = `JSONDecodeError`). -/

/-- The needle of the tagged fence search of three backticks followed by
the word json, as a character list. -/
def tagTok : List Char := "```json".toList

/-- The bare fence needle of three backticks. -/
def fenceTok : List Char := "```".toList

/-- The parse-failure sentinel dict. -/
def sentinelFor (response : List Char) : PyDict :=
  [("error", Val.vstr "Failed to parse JSON"),
   ("raw_response", Val.vstr (String.mk response))]

/-- One candidate pass of the untagged-fence loop: try each segment of the
fence split whose stripped form starts with a brace and ends with a brace,
skipping segments whose parse fails (the inner try with continue). -/
def fenceLoop (parse : List Char → Option PyDict) : List (List Char) → Option PyDict
  | [] => none
  | p :: ps =>
    let q := chStrip p
    if q.head? == some lbr && q.getLast? == some rbr then
      match parse q with
      | some d => some d
      | none => fenceLoop parse ps
    else fenceLoop parse ps

/-- The final first-brace-to-last-brace fallback: slice from the first
opening brace to just past the last closing brace, then parse; any failure
here reaches the enclosing handler, producing the sentinel. -/
def bracesStep (parse : List Char → Option PyDict) (response : List Char) : PyDict :=
  match chFindFrom [lbr] response 0, chRlast rbr response with
  | some s, some r =>
    if s < r + 1 then
      match parse (chSlice response s (r + 1)) with
      | some d => d
      | none => sentinelFor response
    else sentinelFor response
  | some _, none => sentinelFor response
  | none, _ => sentinelFor response

/-- The part of the chain after the tagged-block attempt: the untagged
fence loop (guarded on a fence being present), then the brace slice. -/
def afterTag (parse : List Char → Option PyDict) (response : List Char) : PyDict :=
  if chHas response fenceTok then
    match fenceLoop parse (split3 response []) with
    | some d => d
    | none => bracesStep parse response
  else bracesStep parse response

/-- The parse fallback chain of `extract_json` on the raw response text.
Mirrors the Python control flow: a failing parse of a closed tagged block,
like a failing final brace-slice parse, raises into the enclosing handler
and yields the sentinel. -/
def parseChain (parse : List Char → Option PyDict) (response : List Char) : PyDict :=
  match parse response with
  | some d => d
  | none =>
    match chFindFrom tagTok response 0 with
    | some i =>
      (match chFindFrom fenceTok (response.drop (i + 7)) (i + 7) with
       | some e =>
         match parse (chStrip (chSlice response (i + 7) e)) with
         | some d => d
         | none => sentinelFor response
       | none => afterTag parse response)
    | none => afterTag parse response

/-- `extract_json`: call the completion provider (here: consume its oracle
outcome) and run the parse chain; a provider failure propagates. -/
def extract_json (parse : List Char → Option PyDict) :
    Except String String → Except String PyDict
  | Except.error e => Except.error e
  | Except.ok response => Except.ok (parseChain parse response.toList)

/-! ### The chain as the spec words it (for claim C2) -/

/-- Contents (stripped) of the first closed tagged fenced block, when one
exists: from just after the tagged opener to the next fence. -/
def tagContents (response : List Char) : Option (List Char) :=
  match chFindFrom tagTok response 0 with
  | none => none
  | some i =>
    match chFindFrom fenceTok (response.drop (i + 7)) (i + 7) with
    | none => none
    | some e => some (chStrip (chSlice response (i + 7) e))

/-- The brace-delimited substring from the first opening brace to the last
closing brace, when non-degenerate. -/
def braceSlice (response : List Char) : Option (List Char) :=
  match chFindFrom [lbr] response 0, chRlast rbr response with
  | some s, some r => if s < r + 1 then some (chSlice response s (r + 1)) else none
  | _, _ => none

/-- Candidate segments tried by the untagged-fence step: stripped segments
of the fence split that start and end with a brace (only when a fence is
present at all). -/
def fenceCands (response : List Char) : List (List Char) :=
  if chHas response fenceTok then
    ((split3 response []).map chStrip).filter
      (fun q => q.head? == some lbr && q.getLast? == some rbr)
  else []

/-- Modelled from the claim of the specification: the five-step chain in
which every step that fails falls through to the next, and the sentinel is
returned only when all parses fail. -/
def claimChainC2 (parse : List Char → Option PyDict) (response : List Char) : PyDict :=
  match parse response with
  | some d => d
  | none =>
    match (tagContents response >>= parse) <|>
          (fenceCands response).findSome? parse <|>
          (braceSlice response >>= parse) with
    | some d => d
    | none => sentinelFor response

/-- Modelled from the claim as amended: identical to the claim chain
except that a closed tagged block's parse outcome is final (failure gives
the sentinel at once, skipping later fallbacks), and likewise the
brace-slice parse failure gives the sentinel. -/
def amendChainC2 (parse : List Char → Option PyDict) (response : List Char) : PyDict :=
  match parse response with
  | some d => d
  | none =>
    match tagContents response with
    | some cs => (parse cs).getD (sentinelFor response)
    | none =>
      match (fenceCands response).findSome? parse with
      | some d => d
      | none =>
        match braceSlice response with
        | some sl => (parse sl).getD (sentinelFor response)
        | none => sentinelFor response

/-! ## External-collaborator oracle

One pipeline run makes at most two completion calls: the router's
`call_llm` and the single tool's `extract_json`.  Each is an `Except`:
`.ok text` is a returned response, `.error msg` is the raised exception
message (`call_llm` re-raises provider failures).  `today` and `nextWeek`
stand for the `datetime.now()`-derived strings of the tools. -/

structure Oracle where
  routerLLM : Except String String
  toolLLM : Except String String
  parse : List Char → Option PyDict
  today : String
  nextWeek : String

/-! ## Tool #1: `log_interaction` (`app/agents/tools/log_interaction.py`) -/

/-- `log_interaction(user_message)`: extract a brand-new record from the
message, defaulting missing fields; on an internal exception return the
failure dict. -/
def log_interaction (o : Oracle) (msg : String) : PyDict :=
  match extract_json o.parse o.toolLLM with
  | Except.error e =>
    [("success", Val.vbool false), ("error", Val.vstr e), ("hcp_name", Val.vnone),
     ("date", Val.vstr o.today), ("sentiment", Val.vstr "Neutral"),
     ("materials_shared", Val.vlist []), ("discussion_summary", Val.vnone),
     ("products_discussed", Val.vlist [])]
  | Except.ok r0 =>
    let r1 := dset r0 "success" (Val.vbool true)
    let r2 := dDefault r1 "hcp_name" Val.vnone
    let r3 := dDefault r2 "date" (Val.vstr o.today)
    let r4 := dDefault r3 "sentiment" (Val.vstr "Neutral")
    let r5 := dDefault r4 "materials_shared" (Val.vlist [])
    let r6 := dDefault r5 "discussion_summary" Val.vnone
    dDefault r6 "products_discussed" (Val.vlist [])

/-! ## Tool #2: `edit_interaction` (`app/agents/tools/edit_interaction.py`) -/

/-- The effective change set of an edit: the extraction, blanked when it
carries an error key or is empty. -/
def editEff (c : PyDict) : PyDict :=
  if dHasKey c "error" || c.isEmpty then [] else c

/-- `edit_interaction(current_data, user_message)`: shallow overlay of the
extracted changed fields over the current record, then mark success; on an
internal exception return failure markers overlaid by the original data. -/
def edit_interaction (o : Oracle) (cur : PyDict) (msg : String) : PyDict :=
  match extract_json o.parse o.toolLLM with
  | Except.error e =>
    pymerge [("success", Val.vbool false), ("error", Val.vstr e)] cur
  | Except.ok c => dset (pymerge cur (editEff c)) "success" (Val.vbool true)

/-! ## Tool #3: `schedule_followup` (`app/agents/tools/schedule_followup.py`) -/

/-- `schedule_followup(hcp_name, user_message)`. -/
def schedule_followup (o : Oracle) (name : Val) : PyDict :=
  match extract_json o.parse o.toolLLM with
  | Except.error e =>
    [("success", Val.vbool false), ("error", Val.vstr e), ("hcp_name", name),
     ("follow_up_date", Val.vstr o.nextWeek), ("talking_points", Val.vlist []),
     ("preparation_notes", Val.vnone)]
  | Except.ok r0 =>
    let r1 := dset r0 "success" (Val.vbool true)
    let r2 := dset r1 "hcp_name" name
    let r3 := dDefault r2 "follow_up_date" (Val.vstr o.nextWeek)
    let r4 := dDefault r3 "talking_points"
      (Val.vlist ["Follow-up discussion", "Address questions", "Next steps"])
    dDefault r4 "preparation_notes" (Val.vstr "Review previous interaction notes")

/-! ## Tool #4: `extract_insights` (`app/agents/tools/extract_insights.py`) -/

/-- `extract_insights(interaction_data)`: note there is no sentinel check,
so a parse-failure sentinel also flows through the defaulting chain. -/
def extract_insights (o : Oracle) (data : PyDict) : PyDict :=
  let sentiment := dgetD data "sentiment" (Val.vstr "Neutral")
  match extract_json o.parse o.toolLLM with
  | Except.error e =>
    [("success", Val.vbool false), ("error", Val.vstr e), ("opportunities", Val.vlist []),
     ("concerns", Val.vlist []), ("recommended_actions", Val.vlist []),
     ("priority_level", Val.vstr "Medium")]
  | Except.ok r0 =>
    let r1 := dset r0 "success" (Val.vbool true)
    let r2 := dDefault r1 "opportunities" (Val.vlist [])
    let r3 := dDefault r2 "concerns" (Val.vlist [])
    let r4 := dDefault r3 "recommended_actions" (Val.vlist ["Follow up with HCP"])
    dDefault r4 "priority_level"
      (Val.vstr (if sentiment == Val.vstr "Positive" then "High"
                 else if sentiment == Val.vstr "Negative" then "Low" else "Medium"))

/-! ## Tool #5: `validate_hcp` (`app/agents/tools/validate_hcp.py`)

The result is paired with the number of completion-gateway invocations
performed (attempted calls, counted whether or not the call succeeds), so
that the empty-name short circuit is observable. -/

/-- Python `str.title()` (uppercase each letter that follows a non-letter,
lowercase the rest). -/
def pyTitleAux : Bool → List Char → List Char
  | _, [] => []
  | prevAlpha, c :: t =>
    (if c.isAlpha then (if prevAlpha then c.toLower else c.toUpper) else c) ::
      pyTitleAux c.isAlpha t

/-- Python `s.title()` on a string. -/
def pyTitle (s : String) : String :=
  String.mk (pyTitleAux false s.toList)

/-- The structured failure returned for an empty or whitespace-only name. -/
def valEmptyResult : PyDict :=
  [("success", Val.vbool false), ("error", Val.vstr "HCP name is empty"),
   ("is_valid", Val.vbool false), ("formatted_name", Val.vnone),
   ("requires_verification", Val.vbool true)]

/-- `validate_hcp(hcp_name)`.  A truthy non-string argument raises on
`.strip()` (modelled as `Except.error`); the pipeline passes a record value
here, so this is reachable in principle. -/
def validate_hcp (o : Oracle) (name : Val) : Except String (PyDict × Nat) :=
  match name with
  | Val.vstr s =>
    if s == "" || (chStrip s.toList).isEmpty then Except.ok (valEmptyResult, 0)
    else
      match extract_json o.parse o.toolLLM with
      | Except.error e =>
        Except.ok ([("success", Val.vbool false), ("error", Val.vstr e),
          ("hcp_name", Val.vstr s), ("is_valid", Val.vnone),
          ("formatted_name", Val.vstr s), ("likely_specialty", Val.vstr "Unknown"),
          ("validation_notes", Val.vstr ("Error: " ++ e)),
          ("requires_verification", Val.vbool true)], 1)
      | Except.ok r0 =>
        let r1 := dset r0 "success" (Val.vbool true)
        let r2 := dset r1 "hcp_name" (Val.vstr s)
        let r3 := dDefaultKey r2 "is_valid" (Val.vbool true)
        let r4 := dDefault r3 "formatted_name" (Val.vstr (pyTitle s))
        let r5 := dDefault r4 "likely_specialty" (Val.vstr "General Practice")
        let r6 := dDefault r5 "validation_notes" (Val.vstr "Name validated")
        let r7 := dDefaultKey r6 "requires_verification" (Val.vbool false)
        Except.ok (r7, 1)
  | v =>
    if truthy v then Except.error "AttributeError: object has no attribute strip"
    else Except.ok (valEmptyResult, 0)

/-! ## Orchestrator (`app/agents/hcp_agent.py`) -/

/-- The LangGraph `AgentState` TypedDict. -/
structure AgentState where
  user_input : String
  current_form_data : PyDict
  form_data : PyDict
  tool_results : PyDict
  intent : String
  chat_response : String
  error : String
  deriving DecidableEq, Repr

/-- The existing-data flag of the router:
`state.get("current_form_data") and state["current_form_data"].get("hcp_name")`. -/
def hasExisting (d : PyDict) : Bool :=
  !(List.isEmpty d) && truthyO (dget? d "hcp_name")

/-- The router's normalisation of the raw classifier response:
`.strip().lower()`. -/
def normTxt (resp : String) : String :=
  String.mk ((chStrip resp.toList).map Char.toLower)

/-- The keyword-containment normalisation cascade of `_router_node`, on the
already stripped and lowercased response text. -/
def classifyIntent (t : String) (hasData : Bool) : String :=
  if hasSubS t "log" then "log"
  else if hasSubS t "edit" || hasSubS t "update" || hasSubS t "change" then "edit"
  else if hasSubS t "schedule" || hasSubS t "follow" then "schedule"
  else if hasSubS t "insight" || hasSubS t "analyz" || hasSubS t "opportun" then "insights"
  else if hasSubS t "validat" || hasSubS t "verify" || hasSubS t "check" then "validate"
  else if hasData then "edit" else "log"

/-- Classification of a raw classifier response. -/
def routerClassify (resp : String) (hasData : Bool) : String :=
  classifyIntent (normTxt resp) hasData

/-- `_router_node`: classify, or on a provider exception set the error
and the `error` intent. -/
def routerNode (o : Oracle) (s : AgentState) : AgentState :=
  match o.routerLLM with
  | Except.error e => { s with intent := "error", error := e }
  | Except.ok resp =>
    { s with intent := routerClassify resp (hasExisting s.current_form_data) }

/-- Python `str(x)` of a dict value fetched with an error default. -/
def errStr (r : PyDict) (dflt : String) : String :=
  pyStrOf (dgetD r "error" (Val.vstr dflt))

/-- `_log_interaction_node`. -/
def logNode (o : Oracle) (s : AgentState) : AgentState :=
  let r := log_interaction o s.user_input
  let s1 := { s with tool_results := r }
  if truthyO (dget? r "success") then
    { s1 with form_data :=
      [("hcp_name", dgetD r "hcp_name" Val.vnone),
       ("date", dgetD r "date" Val.vnone),
       ("sentiment", dgetD r "sentiment" Val.vnone),
       ("materials_shared", dgetD r "materials_shared" (Val.vlist [])),
       ("discussion_summary", dgetD r "discussion_summary" Val.vnone),
       ("products_discussed", dgetD r "products_discussed" (Val.vlist [])),
       ("follow_up_date", dgetD r "follow_up_date" Val.vnone),
       ("key_insights", dgetD r "key_insights" Val.vnone)] }
  else { s1 with error := errStr r "Unknown error" }

/-- `_edit_interaction_node` (keeps the original data on error). -/
def editNode (o : Oracle) (s : AgentState) : AgentState :=
  let cur := s.current_form_data
  let r := edit_interaction o cur s.user_input
  let s1 := { s with tool_results := r }
  if truthyO (dget? r "success") then { s1 with form_data := r }
  else { s1 with error := errStr r "Unknown error", form_data := cur }

/-- Python iteration of a value as a sequence of strings (lists iterate
their items, strings iterate their characters, everything else raises a
TypeError). -/
def pyIterStrs : Val → Except String (List String)
  | Val.vlist xs => Except.ok xs
  | Val.vstr s => Except.ok (s.toList.map (fun c => String.mk [c]))
  | _ => Except.error "TypeError: not iterable"

/-- Python `sep.join(v)`. -/
def pyJoin (sep : String) (v : Val) : Except String String := do
  let xs ← pyIterStrs v
  pure (String.intercalate sep xs)

/-- `_schedule_followup_node`.  The join of the talking points can raise
(inside the node's handler); the follow-up-date write happens on a local
copy, so a raise leaves `form_data` untouched. -/
def schedNode (o : Oracle) (s : AgentState) : AgentState :=
  let name := dgetD s.current_form_data "hcp_name" (Val.vstr "HCP")
  let r := schedule_followup o name
  let s1 := { s with tool_results := r }
  if truthyO (dget? r "success") then
    match pyJoin "\n" (dgetD r "talking_points" (Val.vlist [])) with
    | Except.error e => { s1 with error := e }
    | Except.ok j =>
      let fd := dset s.current_form_data "follow_up_date" (dgetD r "follow_up_date" Val.vnone)
      let txt := "Follow-up planned:\n- " ++ j ++ "\n\nPreparation: "
                  ++ pyStrOf (dgetD r "preparation_notes" (Val.vstr ""))
      { s1 with form_data := dset fd "key_insights" (Val.vstr txt) }
  else { s1 with error := errStr r "Unknown error" }

/-- The formatted insight text built by `_extract_insights_node`; the
per-section joins can raise. -/
def buildInsightsTxt (r : PyDict) : Except String String := do
  let priority := dgetD r "priority_level" (Val.vstr "Medium")
  let opps := dgetD r "opportunities" (Val.vlist [])
  let cons := dgetD r "concerns" (Val.vlist [])
  let acts := dgetD r "recommended_actions" (Val.vlist [])
  let base := "Priority: " ++ pyStrOf priority ++ "\n\n"
  let base ← if truthy opps then do
      let xs ← pyIterStrs opps
      pure (base ++ "Opportunities:\n- "
        ++ String.intercalate "\n" (xs.map (fun x => "- " ++ x)) ++ "\n\n")
    else pure base
  let base ← if truthy cons then do
      let xs ← pyIterStrs cons
      pure (base ++ "Concerns:\n- "
        ++ String.intercalate "\n" (xs.map (fun x => "- " ++ x)) ++ "\n\n")
    else pure base
  let base ← if truthy acts then do
      let xs ← pyIterStrs acts
      pure (base ++ "Recommended Actions:\n- "
        ++ String.intercalate "\n" (xs.map (fun x => "- " ++ x)))
    else pure base
  pure base

/-- `_extract_insights_node`. -/
def insNode (o : Oracle) (s : AgentState) : AgentState :=
  let r := extract_insights o s.current_form_data
  let s1 := { s with tool_results := r }
  if truthyO (dget? r "success") then
    match buildInsightsTxt r with
    | Except.error e => { s1 with error := e }
    | Except.ok txt =>
      { s1 with form_data := dset s.current_form_data "key_insights" (Val.vstr txt) }
  else { s1 with error := errStr r "Unknown error" }

/-- The name argument `_validate_hcp_node` passes to the tool: the record's
`hcp_name` if truthy, else the raw user input. -/
def validateArg (s : AgentState) : Val :=
  let h := dgetD s.current_form_data "hcp_name" (Val.vstr "")
  if truthy h then h else Val.vstr s.user_input

/-- The validation-insights text merged on success. -/
def valInsightsTxt (r : PyDict) : String :=
  "HCP Validation:\n- Specialty: " ++ pyStrOf (dgetD r "likely_specialty" (Val.vstr "Unknown"))
    ++ "\n- Notes: " ++ pyStrOf (dgetD r "validation_notes" (Val.vstr ""))

/-- `_validate_hcp_node`: merge formatted name and validation insights only
when the tool reports both success and validity. -/
def valNode (o : Oracle) (s : AgentState) : AgentState :=
  match validate_hcp o (validateArg s) with
  | Except.error e => { s with error := e }
  | Except.ok (r, _) =>
    let s1 := { s with tool_results := r }
    if truthyO (dget? r "success") && truthyO (dget? r "is_valid") then
      let fd := dset s.current_form_data "hcp_name" (dgetD r "formatted_name" Val.vnone)
      { s1 with form_data := dset fd "key_insights" (Val.vstr (valInsightsTxt r)) }
    else { s1 with error := errStr r "Validation failed" }

/-- The conditional edge out of the router (`_route_to_tool` plus the edge
map): the `error` intent, or any unmapped label, goes straight to the
formatter. -/
def toolStep (o : Oracle) (s : AgentState) : AgentState :=
  match s.intent with
  | "log" => logNode o s
  | "edit" => editNode o s
  | "schedule" => schedNode o s
  | "insights" => insNode o s
  | "validate" => valNode o s
  | _ => s

/-- The apology template of the formatter and of `process`'s handler. -/
def apologyMsg (e : String) : String :=
  "❌ Sorry, I encountered an error: " ++ e

/-- The response text built by `_formatter_node`; the per-intent branches
can raise (the formatter has no exception handler of its own). -/
def formatMsg (s : AgentState) : Except String String :=
  let fd := s.form_data
  let tr := s.tool_results
  if !(s.error == "") then Except.ok (apologyMsg s.error)
  else if s.intent == "log" then do
    let base := "✓ I\x27ve logged your interaction with "
      ++ pyStrOf (dgetD fd "hcp_name" (Val.vstr "the HCP")) ++ ".\n\n"
      ++ "📋 Details captured:\n"
      ++ "- Date: " ++ pyStrOf (dgetD fd "date" (Val.vstr "N/A")) ++ "\n"
      ++ "- Sentiment: " ++ pyStrOf (dgetD fd "sentiment" (Val.vstr "neutral")) ++ "\n"
    let base ← if truthyO (dget? fd "materials_shared") then do
        let j ← pyJoin ", " (dgetD fd "materials_shared" Val.vnone)
        pure (base ++ "- Materials: " ++ j ++ "\n")
      else pure base
    let base ← if truthyO (dget? fd "products_discussed") then do
        let j ← pyJoin ", " (dgetD fd "products_discussed" Val.vnone)
        pure (base ++ "- Products: " ++ j ++ "\n")
      else pure base
    pure (base ++ "\nYour interaction has been recorded successfully!")
  else if s.intent == "edit" then
    Except.ok ("✓ I\x27ve updated the interaction with your changes.\n\n"
      ++ "📝 Current data:\n"
      ++ "- HCP: " ++ pyStrOf (dgetD fd "hcp_name" (Val.vstr "N/A")) ++ "\n"
      ++ "- Sentiment: " ++ pyStrOf (dgetD fd "sentiment" (Val.vstr "N/A")) ++ "\n"
      ++ "The form has been updated.")
  else if s.intent == "schedule" then do
    let base := "✓ Follow-up scheduled for "
      ++ pyStrOf (dgetD tr "follow_up_date" (Val.vstr "soon")) ++ "!\n\n"
    let tp := dgetD tr "talking_points" (Val.vlist [])
    let base ← if truthy tp then do
        let xs ← pyIterStrs tp
        pure (base ++ "📅 Talking points:\n"
          ++ String.join (xs.map (fun p => "  • " ++ p ++ "\n")))
      else pure base
    let base := if truthyO (dget? tr "preparation_notes") then
        base ++ "\n📌 Preparation: " ++ pyStrOf (dgetD tr "preparation_notes" Val.vnone)
      else base
    pure base
  else if s.intent == "insights" then do
    let base := "🔍 Analysis complete! Priority: "
      ++ pyStrOf (dgetD tr "priority_level" (Val.vstr "Medium")) ++ "\n\n"
    let opps := dgetD tr "opportunities" (Val.vlist [])
    let acts := dgetD tr "recommended_actions" (Val.vlist [])
    let base ← if truthy opps then do
        let xs ← pyIterStrs opps
        pure (base ++ "✨ Opportunities:\n"
          ++ String.join (xs.map (fun p => "  • " ++ p ++ "\n")))
      else pure base
    let base ← if truthy acts then do
        let xs ← pyIterStrs acts
        pure (base ++ "\n🎯 Recommended actions:\n"
          ++ String.join (xs.map (fun p => "  • " ++ p ++ "\n")))
      else pure base
    pure base
  else if s.intent == "validate" then
    Except.ok ("✓ HCP information validated!\n\n"
      ++ "👨‍⚕️ Name: " ++ pyStrOf (dgetD tr "formatted_name" (Val.vstr "Unknown")) ++ "\n"
      ++ "🏥 Likely specialty: " ++ pyStrOf (dgetD tr "likely_specialty" (Val.vstr "Unknown"))
      ++ "\n"
      ++ (if truthyO (dget? tr "requires_verification") then
            "\n⚠️ Manual verification recommended." else ""))
  else Except.ok "✓ Request processed successfully!"

/-- `_formatter_node`: only writes `chat_response`. -/
def formatterNode (s : AgentState) : Except String AgentState :=
  match formatMsg s with
  | Except.ok m => Except.ok { s with chat_response := m }
  | Except.error e => Except.error e

/-- The initial `AgentState` built by `process`. -/
def initState (input : String) (cur : PyDict) : AgentState :=
  { user_input := input, current_form_data := cur, form_data := [],
    tool_results := [], intent := "", chat_response := "", error := "" }

/-- One full run of the compiled graph: router, conditional tool edge,
formatter.  An uncaught exception (only the formatter can raise one here)
surfaces as `Except.error`. -/
def runGraph (o : Oracle) (input : String) (cur : PyDict) : Except String AgentState :=
  formatterNode (toolStep o (routerNode o (initState input cur)))

/-- The result mapping of `HCPAgent.process`. -/
structure ProcResult where
  form_data : PyDict
  chat_response : String
  intent : String
  success : Bool
  deriving DecidableEq, Repr

/-- `HCPAgent.process(user_input, current_form_data)`: run the graph; on an
uncaught exception fall back to the prior data with a failure flag. -/
def process (o : Oracle) (input : String) (cur? : Option PyDict) : ProcResult :=
  let cur := cur?.getD []
  match runGraph o input cur with
  | Except.ok fs =>
    { form_data := fs.form_data, chat_response := fs.chat_response,
      intent := fs.intent, success := fs.error == "" }
  | Except.error e =>
    { form_data := cur, chat_response := apologyMsg e,
      intent := "error", success := false }

/-- Whether a stage of the pipeline recorded an error on the given run:
either the graph raised, or the final state carries a non-empty error. -/
def pipelineErrored (o : Oracle) (input : String) (cur? : Option PyDict) : Prop :=
  match runGraph o input (cur?.getD []) with
  | Except.error _ => True
  | Except.ok fs => fs.error ≠ ""

/-! ## Concrete instances used by witnesses and counterexamples -/

/-- An oracle with fixed dates, for concrete runs. -/
def mkOracle (r t : Except String String) (p : List Char → Option PyDict) : Oracle :=
  { routerLLM := r, toolLLM := t, parse := p,
    today := "2026-01-18", nextWeek := "2026-01-25" }

/-- A parse stand-in for `json.loads` agreeing with it on the strings of
the C2 example: the brace-delimited object parses, everything else fails. -/
def c2Parse : List Char → Option PyDict :=
  fun cs => if cs = "\x7b\"a\":1\x7d".toList then some [("a", Val.vint 1)] else none

/-- A response with a closed tagged fence whose contents are not valid
JSON, followed by a perfectly parseable brace-delimited object. -/
def c2Resp : String := "```json\nnot json\n``` \x7b\"a\":1\x7d"

/-- Oracle for the C1 counterexample: classifier answers log, the tool
call raises. -/
def c1Oracle : Oracle := mkOracle (Except.ok "log") (Except.error "boom") (fun _ => none)

/-- A non-empty prior record. -/
def c1Cur : PyDict := [("hcp_name", Val.vstr "Dr. X")]

/-- Parse stand-in returning the empty object for the literal empty-object
text, as `json.loads` does. -/
def emptyObjParse : List Char → Option PyDict :=
  fun cs => if cs = "\x7b\x7d".toList then some [] else none

/-- Oracle whose tool extraction yields the empty change set. -/
def c3EmptyOracle : Oracle := mkOracle (Except.ok "edit") (Except.ok "\x7b\x7d") emptyObjParse

/-- The current record of the spec's edit example. -/
def c3Cur : PyDict :=
  [("hcp_name", Val.vstr "Dr. A"), ("sentiment", Val.vstr "Positive"),
   ("materials_shared", Val.vlist ["x"])]

/-- Parse stand-in delivering a sentiment-only change set. -/
def c3Parse : List Char → Option PyDict :=
  fun cs => if cs = "\x7b\"sentiment\":\"Negative\"\x7d".toList
            then some [("sentiment", Val.vstr "Negative")] else none

/-- Oracle whose tool extraction yields only a changed sentiment. -/
def c3Oracle : Oracle :=
  mkOracle (Except.ok "edit") (Except.ok "\x7b\"sentiment\":\"Negative\"\x7d") c3Parse

/-- An agent state carrying a recorded error, for the formatter. -/
def c6State : AgentState :=
  { user_input := "m", current_form_data := [], form_data := [],
    tool_results := [], intent := "log", chat_response := "", error := "boom" }

/-- An oracle that is never consulted successfully. -/
def oPlain : Oracle := mkOracle (Except.ok "log") (Except.ok "x") (fun _ => none)

/-- Oracle whose tool extraction yields the empty object for response x. -/
def c8Oracle : Oracle :=
  mkOracle (Except.ok "insights") (Except.ok "x")
    (fun cs => if cs = "x".toList then some [] else none)

/-- A record with negative sentiment and nothing else. -/
def c8Data : PyDict := [("sentiment", Val.vstr "Negative")]

/-- Oracle whose tool extraction marks the name invalid. -/
def c10Oracle : Oracle :=
  mkOracle (Except.ok "validate") (Except.ok "v")
    (fun cs => if cs = "v".toList then some [("is_valid", Val.vbool false)] else none)

/-- A state holding a record with a truthy name, entering validation. -/
def c10State : AgentState :=
  { initState "verify bob" [("hcp_name", Val.vstr "Bob")] with intent := "validate" }

/-- The tool result `validate_hcp` produces for `c10Oracle` and
`c10State`: defaults filled in, validity still false. -/
def c10R : PyDict :=
  [("is_valid", Val.vbool false), ("success", Val.vbool true),
   ("hcp_name", Val.vstr "Bob"), ("formatted_name", Val.vstr "Bob"),
   ("likely_specialty", Val.vstr "General Practice"),
   ("validation_notes", Val.vstr "Name validated"),
   ("requires_verification", Val.vbool false)]

/-! ## Dict lemmas -/

theorem dget_dset_same (d : PyDict) (k : String) (v : Val) :
    dget? (dset d k v) k = some v := by
  induction d with
  | nil => simp [dset, dget?]
  | cons hd t ih =>
    obtain ⟨k1, v1⟩ := hd
    by_cases h : k1 = k
    · subst h; simp [dset, dget?]
    · simp [dset, dget?, h, ih]

theorem dget_dset_other (d : PyDict) (k k2 : String) (v : Val) (h : k ≠ k2) :
    dget? (dset d k v) k2 = dget? d k2 := by
  induction d with
  | nil => simp [dset, dget?, h]
  | cons hd t ih =>
    obtain ⟨k1, v1⟩ := hd
    by_cases h1 : k1 = k
    · subst h1
      simp [dset, dget?, h]
    · by_cases h2 : k1 = k2
      · subst h2; simp [dset, dget?, h1]
      · simp [dset, dget?, h1, h2, ih]

/-- A dict has a key exactly when lookup succeeds. -/
theorem dHasKey_false_iff (d : PyDict) (k : String) :
    dHasKey d k = false ↔ dget? d k = none := by
  simp [dHasKey, Option.isSome_iff_exists]

theorem pymerge_nil (a : PyDict) : pymerge a ([] : List (String × Val)) = a := rfl

theorem pymerge_cons (a : PyDict) (k : String) (v : Val) (t : List (String × Val)) :
    pymerge a ((k, v) :: t) = pymerge (dset a k v) t := rfl

/-- A key absent from `b` looks up in `{**a, **b}` as it does in `a`. -/
theorem dget_pymerge_notin (b a : PyDict) (k : String)
    (h : dHasKey b k = false) : dget? (pymerge a b) k = dget? a k := by
  induction b generalizing a with
  | nil => rfl
  | cons hd t ih =>
    obtain ⟨k1, v1⟩ := hd
    have hk1 : ¬(k1 = k) := by
      intro he; subst he
      simp [dHasKey, dget?] at h
    have ht : dHasKey t k = false := by
      simp only [dHasKey, dget?, if_neg hk1] at h
      simpa [dHasKey] using h
    rw [pymerge_cons, ih _ ht, dget_dset_other _ _ _ _ hk1]

/-- A successful lookup witnesses key membership. -/
theorem dHasKey_of_dget (d : PyDict) (k : String) (v : Val)
    (h : dget? d k = some v) : dHasKey d k = true := by
  simp [dHasKey, h]

/-- Key membership implies the key occurs in the key list. -/
theorem mem_keys_of_dHasKey (d : PyDict) (k : String)
    (h : dHasKey d k = true) : k ∈ d.map Prod.fst := by
  induction d with
  | nil => simp [dHasKey, dget?] at h
  | cons hd t ih =>
    obtain ⟨k1, v1⟩ := hd
    by_cases hk : k1 = k
    · subst hk; simp
    · simp only [dHasKey, dget?, if_neg hk] at h
      exact List.mem_cons_of_mem _ (ih (by simpa [dHasKey] using h))

/-- A key present in `b` (with unique keys) looks up in `{**a, **b}` to
its value in `b`. -/
theorem dget_pymerge_in (b a : PyDict) (k : String) (v : Val)
    (hnd : dNodupKeys b) (h : dget? b k = some v) :
    dget? (pymerge a b) k = some v := by
  induction b generalizing a with
  | nil => simp [dget?] at h
  | cons hd t ih =>
    obtain ⟨k1, v1⟩ := hd
    have hcons : (k1 :: t.map Prod.fst).Nodup := by simpa [dNodupKeys] using hnd
    have hnd' : dNodupKeys t := by
      simpa [dNodupKeys] using (List.nodup_cons.mp hcons).2
    by_cases hk : k1 = k
    · subst hk
      have hv : v1 = v := by simpa [dget?] using h
      subst hv
      have hnotin : dHasKey t k1 = false := by
        by_contra hcon
        exact (List.nodup_cons.mp hcons).1
          (mem_keys_of_dHasKey t k1 (by simpa using hcon))
      rw [pymerge_cons, dget_pymerge_notin _ _ _ hnotin, dget_dset_same]
    · simp only [dget?, if_neg hk] at h
      rw [pymerge_cons]
      exact ih _ hnd' h

/-! ## Chain lemmas -/

/-- The inline fence loop equals findSome? over the filtered stripped
segments. -/
theorem fenceLoop_eq_findSome (parse : List Char → Option PyDict)
    (parts : List (List Char)) :
    fenceLoop parse parts =
      ((parts.map chStrip).filter
        (fun q => q.head? == some lbr && q.getLast? == some rbr)).findSome? parse := by
  induction parts with
  | nil => rfl
  | cons p ps ih =>
    by_cases hq : ((chStrip p).head? == some lbr && (chStrip p).getLast? == some rbr) = true
    · simp only [fenceLoop, hq, if_true, List.map_cons, List.filter_cons, List.findSome?]
      cases parse (chStrip p) with
      | some d => simp
      | none => simpa using ih
    · simp only [fenceLoop, List.map_cons, List.filter_cons]
      rw [if_neg hq]
      simp only [hq, Bool.false_eq_true, if_false]
      exact ih

/-- The brace fallback step, rephrased through `braceSlice`. -/
theorem bracesStep_eq (parse : List Char → Option PyDict) (response : List Char) :
    bracesStep parse response =
      match braceSlice response with
      | some sl => (parse sl).getD (sentinelFor response)
      | none => sentinelFor response := by
  unfold bracesStep braceSlice
  cases chFindFrom [lbr] response 0 with
  | none => rfl
  | some s =>
    cases chRlast rbr response with
    | none => rfl
    | some r =>
      by_cases hlt : s < r + 1
      · simp only [if_pos hlt]
        cases parse (chSlice response s (r + 1)) <;> rfl
      · simp only [if_neg hlt]

/-- The post-tag part of the chain, rephrased through `fenceCands` and
`braceSlice`. -/
theorem afterTag_eq (parse : List Char → Option PyDict) (response : List Char) :
    afterTag parse response =
      match (fenceCands response).findSome? parse with
      | some d => d
      | none =>
        match braceSlice response with
        | some sl => (parse sl).getD (sentinelFor response)
        | none => sentinelFor response := by
  unfold afterTag fenceCands
  by_cases hf : chHas response fenceTok = true
  · simp only [hf, if_true]
    rw [fenceLoop_eq_findSome]
    cases ((split3 response []).map chStrip).filter
        (fun q => q.head? == some lbr && q.getLast? == some rbr) |>.findSome? parse with
    | some d => rfl
    | none => exact bracesStep_eq parse response
  · simp only [hf, Bool.false_eq_true, if_false, List.findSome?]
    exact bracesStep_eq parse response

/-- The source chain coincides with the amended five-step description. -/
theorem parseChain_eq_amend (parse : List Char → Option PyDict) (response : List Char) :
    parseChain parse response = amendChainC2 parse response := by
  unfold parseChain amendChainC2 tagContents
  cases hd : parse response with
  | some d => rfl
  | none =>
    cases hi : chFindFrom tagTok response 0 with
    | some i =>
      cases he : chFindFrom fenceTok (response.drop (i + 7)) (i + 7) with
      | some e =>
        simp only [hi, he]
        cases hp : parse (chStrip (chSlice response (i + 7) e)) <;> simp [hp]
      | none =>
        simp only [hi, he]
        exact afterTag_eq parse response
    | none =>
      simp only [hi]
      exact afterTag_eq parse response

/-! ## Defaulting lemmas -/

theorem dget_dDefault_other (d : PyDict) (k k2 : String) (v : Val) (h : k ≠ k2) :
    dget? (dDefault d k v) k2 = dget? d k2 := by
  unfold dDefault
  split
  · rfl
  · exact dget_dset_other d k k2 v h

theorem dget_dDefaultKey_other (d : PyDict) (k k2 : String) (v : Val) (h : k ≠ k2) :
    dget? (dDefaultKey d k v) k2 = dget? d k2 := by
  unfold dDefaultKey
  split
  · rfl
  · exact dget_dset_other d k k2 v h

theorem dget_dDefault_same_of_falsy (d : PyDict) (k : String) (v : Val)
    (h : truthyO (dget? d k) = false) :
    dget? (dDefault d k v) k = some v := by
  unfold dDefault
  rw [h]
  simp [dget_dset_same]

/-! ## Substring lemmas -/

theorem chPre_refl (l : List Char) : chPre l l = true := by
  induction l with
  | nil => rfl
  | cons a t ih => simp [chPre, ih]

theorem chFindFrom_append_isSome (l pre : List Char) (i : Nat) :
    (chFindFrom l (pre ++ l) i).isSome = true := by
  induction pre generalizing i with
  | nil =>
    cases l with
    | nil => simp [chFindFrom, chPre]
    | cons a t => simp [chFindFrom, chPre_refl]
  | cons h tpre ih =>
    simp only [List.cons_append, chFindFrom, List.append_eq]
    by_cases hp : chPre l (h :: (tpre ++ l)) = true
    · simp [hp]
    · rw [if_neg hp]
      exact ih (i + 1)

/-- Any string contains each of its suffixes. -/
theorem hasSubS_append (p e : String) : hasSubS (p ++ e) e = true := by
  unfold hasSubS chHas
  have hd : (p ++ e).toList = p.toList ++ e.toList := by
    simp [String.toList]
  rw [hd]
  exact chFindFrom_append_isSome e.toList p.toList 0

/-! ## Node-shape lemmas

Each tool node either leaves the error untouched (its success path), or
leaves the merged data untouched, or resets the merged data to the prior
record (the edit failure path); the current record is never modified. -/

theorem logNode_outcome (o : Oracle) (s : AgentState) :
    (logNode o s).current_form_data = s.current_form_data ∧
    ((logNode o s).error = s.error ∨ (logNode o s).form_data = s.form_data ∨
     (logNode o s).form_data = s.current_form_data) := by
  simp only [logNode]
  split
  · exact ⟨rfl, Or.inl rfl⟩
  · exact ⟨rfl, Or.inr (Or.inl rfl)⟩

theorem editNode_outcome (o : Oracle) (s : AgentState) :
    (editNode o s).current_form_data = s.current_form_data ∧
    ((editNode o s).error = s.error ∨ (editNode o s).form_data = s.form_data ∨
     (editNode o s).form_data = s.current_form_data) := by
  simp only [editNode]
  split
  · exact ⟨rfl, Or.inl rfl⟩
  · exact ⟨rfl, Or.inr (Or.inr rfl)⟩

theorem schedNode_outcome (o : Oracle) (s : AgentState) :
    (schedNode o s).current_form_data = s.current_form_data ∧
    ((schedNode o s).error = s.error ∨ (schedNode o s).form_data = s.form_data ∨
     (schedNode o s).form_data = s.current_form_data) := by
  simp only [schedNode]
  split
  · split
    · exact ⟨rfl, Or.inr (Or.inl rfl)⟩
    · exact ⟨rfl, Or.inl rfl⟩
  · exact ⟨rfl, Or.inr (Or.inl rfl)⟩

theorem insNode_outcome (o : Oracle) (s : AgentState) :
    (insNode o s).current_form_data = s.current_form_data ∧
    ((insNode o s).error = s.error ∨ (insNode o s).form_data = s.form_data ∨
     (insNode o s).form_data = s.current_form_data) := by
  simp only [insNode]
  split
  · split
    · exact ⟨rfl, Or.inr (Or.inl rfl)⟩
    · exact ⟨rfl, Or.inl rfl⟩
  · exact ⟨rfl, Or.inr (Or.inl rfl)⟩

theorem valNode_outcome (o : Oracle) (s : AgentState) :
    (valNode o s).current_form_data = s.current_form_data ∧
    ((valNode o s).error = s.error ∨ (valNode o s).form_data = s.form_data ∨
     (valNode o s).form_data = s.current_form_data) := by
  simp only [valNode]
  split
  · exact ⟨rfl, Or.inr (Or.inl rfl)⟩
  · split
    · exact ⟨rfl, Or.inl rfl⟩
    · exact ⟨rfl, Or.inr (Or.inl rfl)⟩

theorem toolStep_outcome (o : Oracle) (s : AgentState) :
    (toolStep o s).current_form_data = s.current_form_data ∧
    ((toolStep o s).error = s.error ∨ (toolStep o s).form_data = s.form_data ∨
     (toolStep o s).form_data = s.current_form_data) := by
  simp only [toolStep]
  split
  · exact logNode_outcome o s
  · exact editNode_outcome o s
  · exact schedNode_outcome o s
  · exact insNode_outcome o s
  · exact valNode_outcome o s
  · exact ⟨rfl, Or.inl rfl⟩

/-- The formatter only writes the chat response: when it returns normally,
merged data, error and prior record pass through unchanged. -/
theorem formatterNode_ok_fields (s fs : AgentState)
    (h : formatterNode s = Except.ok fs) :
    fs.form_data = s.form_data ∧ fs.error = s.error ∧
    fs.current_form_data = s.current_form_data := by
  unfold formatterNode at h
  cases hm : formatMsg s with
  | ok m =>
    rw [hm] at h
    have : ({ s with chat_response := m } : AgentState) = fs := by
      injection h
    subst this
    exact ⟨rfl, rfl, rfl⟩
  | error e =>
    rw [hm] at h
    exact absurd h (by simp)

/-! ## Claim theorems -/

/-- C4: for every classifier response text containing none of the intent
keywords (after the router's strip-and-lowercase normalisation), classify
returns edit when an existing record is present and log when it is not. -/
theorem c4_classifier_fallback (resp : String) (b : Bool)
    (h1 : hasSubS (normTxt resp) "log" = false)
    (h2 : hasSubS (normTxt resp) "edit" = false)
    (h3 : hasSubS (normTxt resp) "update" = false)
    (h4 : hasSubS (normTxt resp) "change" = false)
    (h5 : hasSubS (normTxt resp) "schedule" = false)
    (h6 : hasSubS (normTxt resp) "follow" = false)
    (h7 : hasSubS (normTxt resp) "insight" = false)
    (h8 : hasSubS (normTxt resp) "analyz" = false)
    (h9 : hasSubS (normTxt resp) "opportun" = false)
    (h10 : hasSubS (normTxt resp) "validat" = false)
    (h11 : hasSubS (normTxt resp) "verify" = false)
    (h12 : hasSubS (normTxt resp) "check" = false) :
    routerClassify resp b = if b then "edit" else "log" := by
  unfold routerClassify classifyIntent
  simp [h1, h2, h3, h4, h5, h6, h7, h8, h9, h10, h11, h12]

/-- Witness for C4 at a keyword-free response, with and without data. -/
theorem c4_classifier_fallback_witness :
    routerClassify "hmm." true = "edit" ∧ routerClassify "hmm." false = "log" :=
  ⟨c4_classifier_fallback "hmm." true (by decide) (by decide) (by decide) (by decide)
      (by decide) (by decide) (by decide) (by decide) (by decide) (by decide)
      (by decide) (by decide),
   c4_classifier_fallback "hmm." false (by decide) (by decide) (by decide) (by decide)
      (by decide) (by decide) (by decide) (by decide) (by decide) (by decide)
      (by decide) (by decide)⟩

/-- C5: a normalised response containing schedule or follow, and no
keyword of the higher-precedence log and edit sets, classifies as schedule
whatever the existing-record flag says. -/
theorem c5_schedule_keyword (resp : String) (b : Bool)
    (hs : (hasSubS (normTxt resp) "schedule" || hasSubS (normTxt resp) "follow") = true)
    (h1 : hasSubS (normTxt resp) "log" = false)
    (h2 : hasSubS (normTxt resp) "edit" = false)
    (h3 : hasSubS (normTxt resp) "update" = false)
    (h4 : hasSubS (normTxt resp) "change" = false) :
    routerClassify resp b = "schedule" := by
  unfold routerClassify classifyIntent
  simp [h1, h2, h3, h4, hs]

/-- Witness for C5: the bare schedule answer, under both flag values. -/
theorem c5_schedule_keyword_witness :
    routerClassify "Schedule" true = "schedule" ∧
    routerClassify "Schedule" false = "schedule" :=
  ⟨c5_schedule_keyword "Schedule" true (by decide) (by decide) (by decide) (by decide)
      (by decide),
   c5_schedule_keyword "Schedule" false (by decide) (by decide) (by decide) (by decide)
      (by decide)⟩

/-- C9: the existing-record flag is truthy `hcp_name` only: on a record
whose `hcp_name` is absent, null or empty, a keyword-free message falls
back to log, not edit, however populated the rest of the record is. -/
theorem c9_existing_flag_requires_hcp_name (d : PyDict) (resp : String)
    (hn : dget? d "hcp_name" = none ∨ dget? d "hcp_name" = some Val.vnone ∨
          dget? d "hcp_name" = some (Val.vstr ""))
    (h1 : hasSubS (normTxt resp) "log" = false)
    (h2 : hasSubS (normTxt resp) "edit" = false)
    (h3 : hasSubS (normTxt resp) "update" = false)
    (h4 : hasSubS (normTxt resp) "change" = false)
    (h5 : hasSubS (normTxt resp) "schedule" = false)
    (h6 : hasSubS (normTxt resp) "follow" = false)
    (h7 : hasSubS (normTxt resp) "insight" = false)
    (h8 : hasSubS (normTxt resp) "analyz" = false)
    (h9 : hasSubS (normTxt resp) "opportun" = false)
    (h10 : hasSubS (normTxt resp) "validat" = false)
    (h11 : hasSubS (normTxt resp) "verify" = false)
    (h12 : hasSubS (normTxt resp) "check" = false) :
    hasExisting d = false ∧ routerClassify resp (hasExisting d) = "log" := by
  have hb : hasExisting d = false := by
    unfold hasExisting
    rcases hn with h | h | h <;> simp [truthyO, truthy, h]
  refine ⟨hb, ?_⟩
  rw [hb]
  unfold routerClassify classifyIntent
  simp [h1, h2, h3, h4, h5, h6, h7, h8, h9, h10, h11, h12]

/-- Witness for C9: a populated record with a null name still routes the
keyword-free message to log. -/
theorem c9_existing_flag_requires_hcp_name_witness :
    hasExisting [("sentiment", Val.vstr "Positive"), ("hcp_name", Val.vnone)] = false ∧
    routerClassify "hello there"
      (hasExisting [("sentiment", Val.vstr "Positive"), ("hcp_name", Val.vnone)]) = "log" :=
  c9_existing_flag_requires_hcp_name _ "hello there" (by decide) (by decide) (by decide)
    (by decide) (by decide) (by decide) (by decide) (by decide) (by decide) (by decide)
    (by decide) (by decide) (by decide)

/-- C6: a non-empty pipeline error makes the formatter emit the apology
containing the error text and nothing depending on intent or records. -/
theorem c6_formatter_error_precedence (s : AgentState) (h : s.error ≠ "") :
    formatterNode s = Except.ok { s with chat_response := apologyMsg s.error } ∧
    hasSubS (apologyMsg s.error) s.error = true := by
  constructor
  · have hb : (s.error == "") = false := by
      simpa using h
    unfold formatterNode formatMsg
    rw [hb]
    rfl
  · exact hasSubS_append "❌ Sorry, I encountered an error: " s.error

/-- Witness for C6 at a concrete errored state. -/
theorem c6_formatter_error_precedence_witness :
    formatterNode c6State = Except.ok { c6State with chat_response := apologyMsg "boom" } ∧
    hasSubS (apologyMsg "boom") "boom" = true :=
  c6_formatter_error_precedence c6State (by decide)

/-- C7: an empty or whitespace-only name short-circuits `validate_hcp`
into the structured failure with zero gateway calls, whatever the oracle
would have answered. -/
theorem c7_validate_empty_short_circuit (o : Oracle) (name : String)
    (h : chStrip name.toList = []) :
    validate_hcp o (Val.vstr name) = Except.ok (valEmptyResult, 0) ∧
    dget? valEmptyResult "success" = some (Val.vbool false) ∧
    dget? valEmptyResult "requires_verification" = some (Val.vbool true) := by
  refine ⟨?_, by decide, by decide⟩
  have hc : (name == "" || (chStrip name.toList).isEmpty) = true := by
    rw [h]
    simp
  simp only [validate_hcp, hc, if_true]

/-- Witness for C7 at a whitespace-only name. -/
theorem c7_validate_empty_short_circuit_witness :
    validate_hcp oPlain (Val.vstr "  ") = Except.ok (valEmptyResult, 0) ∧
    dget? valEmptyResult "success" = some (Val.vbool false) ∧
    dget? valEmptyResult "requires_verification" = some (Val.vbool true) :=
  c7_validate_empty_short_circuit oPlain "  " (by decide)

/-- C8: whenever the insights extraction carries no (truthy)
priority level, `extract_insights` derives it from the record's sentiment
(Positive to High, Negative to Low, otherwise Medium); missing
recommended actions default to the single generic action, and missing
opportunity and concern lists default to the empty list. -/
theorem c8_insights_priority_defaults (o : Oracle) (data : PyDict) (resp : String)
    (r : PyDict) (hok : o.toolLLM = Except.ok resp)
    (hr : parseChain o.parse resp.toList = r) :
    (truthyO (dget? r "priority_level") = false →
      dget? (extract_insights o data) "priority_level" = some (Val.vstr
        (if dgetD data "sentiment" (Val.vstr "Neutral") == Val.vstr "Positive" then "High"
         else if dgetD data "sentiment" (Val.vstr "Neutral") == Val.vstr "Negative" then "Low"
         else "Medium"))) ∧
    (truthyO (dget? r "recommended_actions") = false →
      dget? (extract_insights o data) "recommended_actions" =
        some (Val.vlist ["Follow up with HCP"])) ∧
    (truthyO (dget? r "opportunities") = false →
      dget? (extract_insights o data) "opportunities" = some (Val.vlist [])) ∧
    (truthyO (dget? r "concerns") = false →
      dget? (extract_insights o data) "concerns" = some (Val.vlist [])) := by
  have hkey : extract_insights o data =
      dDefault (dDefault (dDefault (dDefault (dset r "success" (Val.vbool true))
          "opportunities" (Val.vlist [])) "concerns" (Val.vlist []))
          "recommended_actions" (Val.vlist ["Follow up with HCP"]))
        "priority_level"
        (Val.vstr
          (if dgetD data "sentiment" (Val.vstr "Neutral") == Val.vstr "Positive" then "High"
           else if dgetD data "sentiment" (Val.vstr "Neutral") == Val.vstr "Negative" then "Low"
           else "Medium")) := by
    simp only [extract_insights, hok, extract_json, hr]
  rw [hkey]
  set d1 := dset r "success" (Val.vbool true) with hd1
  set d2 := dDefault d1 "opportunities" (Val.vlist []) with hd2
  set d3 := dDefault d2 "concerns" (Val.vlist []) with hd3
  set d4 := dDefault d3 "recommended_actions" (Val.vlist ["Follow up with HCP"]) with hd4
  have e1 : ∀ k, k ≠ "success" → dget? d1 k = dget? r k := fun k hk => by
    rw [hd1, dget_dset_other r "success" k (Val.vbool true) (Ne.symm hk)]
  have e2 : ∀ k, k ≠ "success" → k ≠ "opportunities" → dget? d2 k = dget? r k :=
    fun k hk ho => by
      rw [hd2, dget_dDefault_other d1 "opportunities" k (Val.vlist []) (Ne.symm ho), e1 k hk]
  have e3 : ∀ k, k ≠ "success" → k ≠ "opportunities" → k ≠ "concerns" →
      dget? d3 k = dget? r k := fun k hk ho hc => by
    rw [hd3, dget_dDefault_other d2 "concerns" k (Val.vlist []) (Ne.symm hc), e2 k hk ho]
  have e4 : ∀ k, k ≠ "success" → k ≠ "opportunities" → k ≠ "concerns" →
      k ≠ "recommended_actions" → dget? d4 k = dget? r k := fun k hk ho hc ha => by
    rw [hd4, dget_dDefault_other d3 "recommended_actions" k
      (Val.vlist ["Follow up with HCP"]) (Ne.symm ha), e3 k hk ho hc]
  refine ⟨?_, ?_, ?_, ?_⟩
  · intro hp
    refine dget_dDefault_same_of_falsy d4 "priority_level" _ ?_
    rw [e4 "priority_level" (by decide) (by decide) (by decide) (by decide)]
    exact hp
  · intro hp
    rw [dget_dDefault_other d4 "priority_level" "recommended_actions" _ (by decide), hd4]
    refine dget_dDefault_same_of_falsy d3 "recommended_actions" _ ?_
    rw [e3 "recommended_actions" (by decide) (by decide) (by decide)]
    exact hp
  · intro hp
    rw [dget_dDefault_other d4 "priority_level" "opportunities" _ (by decide), hd4,
      dget_dDefault_other d3 "recommended_actions" "opportunities" _ (by decide), hd3,
      dget_dDefault_other d2 "concerns" "opportunities" _ (by decide), hd2]
    refine dget_dDefault_same_of_falsy d1 "opportunities" _ ?_
    rw [e1 "opportunities" (by decide)]
    exact hp
  · intro hp
    rw [dget_dDefault_other d4 "priority_level" "concerns" _ (by decide), hd4,
      dget_dDefault_other d3 "recommended_actions" "concerns" _ (by decide), hd3]
    refine dget_dDefault_same_of_falsy d2 "concerns" _ ?_
    rw [e2 "concerns" (by decide) (by decide)]
    exact hp

/-- Witness for C8: negative sentiment and an empty extraction yield the
Low priority and the generic action. -/
theorem c8_insights_priority_defaults_witness :
    dget? (extract_insights c8Oracle c8Data) "priority_level" = some (Val.vstr "Low") ∧
    dget? (extract_insights c8Oracle c8Data) "recommended_actions" =
      some (Val.vlist ["Follow up with HCP"]) := by
  have h := c8_insights_priority_defaults c8Oracle c8Data "x" [] rfl (by decide)
  exact ⟨(h.1 (by decide)).trans (by decide), h.2.1 (by decide)⟩

/-- C10: the validation node merges the formatted name and the validation
insights only when the tool result has both success and validity; a
result whose validity is falsy, even a successful one, sets the context
error (from the result's error entry, defaulting to Validation failed)
and leaves the merged record untouched. -/
theorem c10_validate_merge_gate (o : Oracle) (s : AgentState) (r : PyDict) (n : Nat)
    (hv : validate_hcp o (validateArg s) = Except.ok (r, n)) :
    (truthyO (dget? r "is_valid") = false →
      (valNode o s).form_data = s.form_data ∧
      (valNode o s).error = errStr r "Validation failed") ∧
    ((truthyO (dget? r "success") && truthyO (dget? r "is_valid")) = false →
      (valNode o s).form_data = s.form_data) ∧
    ((truthyO (dget? r "success") && truthyO (dget? r "is_valid")) = true →
      (valNode o s).form_data =
        dset (dset s.current_form_data "hcp_name" (dgetD r "formatted_name" Val.vnone))
          "key_insights" (Val.vstr (valInsightsTxt r)) ∧
      (valNode o s).error = s.error) := by
  simp only [valNode, hv]
  refine ⟨?_, ?_, ?_⟩
  · intro hiv
    simp only [hiv, Bool.and_false, Bool.false_eq_true, if_false]
    exact ⟨by trivial, by trivial⟩
  · intro hc
    simp only [hc, Bool.false_eq_true, if_false]
  · intro hc
    simp only [hc, if_true]
    exact ⟨by trivial, by trivial⟩

/-- Witness for C10: a successful tool result with a false validity flag
takes the error branch and leaves the merged record untouched. -/
theorem c10_validate_merge_gate_witness :
    (valNode c10Oracle c10State).form_data = c10State.form_data ∧
    (valNode c10Oracle c10State).error = errStr c10R "Validation failed" :=
  (c10_validate_merge_gate c10Oracle c10State c10R 1 (by rfl)).1 (by decide)

/-- C2 counterexample: on a response whose closed tagged fence holds
unparseable contents but whose first-brace-to-last-brace slice parses,
the code returns the sentinel even though a later fallback of the claimed
chain succeeds, so the sentinel is not returned only when all steps fail. -/
theorem c2_counterexample :
    extract_json c2Parse (Except.ok c2Resp) = Except.ok (sentinelFor c2Resp.toList) ∧
    (braceSlice c2Resp.toList >>= c2Parse) = some [("a", Val.vint 1)] ∧
    claimChainC2 c2Parse c2Resp.toList = [("a", Val.vint 1)] ∧
    parseChain c2Parse c2Resp.toList ≠ claimChainC2 c2Parse c2Resp.toList := by
  refine ⟨?_, by decide, by decide, by decide⟩
  show Except.ok (parseChain c2Parse c2Resp.toList) = _
  have h : parseChain c2Parse c2Resp.toList = sentinelFor c2Resp.toList := by decide
  rw [h]

/-- C2 as amended: `extract_json` follows the five-step chain except that
the parse outcome of a closed tagged block is final (a failure there
yields the sentinel at once, skipping the remaining fallbacks), the
untagged-fence step tries every segment of the fence split, and a failing
parse of the brace slice likewise yields the sentinel; provider
exceptions propagate, and the sentinel preserves the response verbatim. -/
theorem c2_extract_json_chain (parse : List Char → Option PyDict) :
    (∀ e, extract_json parse (Except.error e) = Except.error e) ∧
    (∀ resp : String,
      extract_json parse (Except.ok resp) = Except.ok (amendChainC2 parse resp.toList)) := by
  constructor
  · intro e
    rfl
  · intro resp
    show Except.ok (parseChain parse resp.toList) = _
    rw [parseChain_eq_amend]

/-- C3 counterexample: an empty extraction does not return the current
record as-is; the success flag is injected into the merged record. -/
theorem c3_counterexample :
    edit_interaction c3EmptyOracle c3Cur "no changes" ≠ c3Cur ∧
    edit_interaction c3EmptyOracle c3Cur "no changes" =
      [("hcp_name", Val.vstr "Dr. A"), ("sentiment", Val.vstr "Positive"),
       ("materials_shared", Val.vlist ["x"]), ("success", Val.vbool true)] := by
  refine ⟨?_, by decide⟩
  decide

/-- C3 as amended: apart from the injected success flag, the edit merge is
a field-level overlay: every current-record field outside the effective
change set survives unchanged, every effective change overwrites, and an
empty or sentinel extraction changes nothing but the success flag. -/
theorem c3_edit_overlay (o : Oracle) (cur : PyDict) (msg resp : String) (eff : PyDict)
    (hok : o.toolLLM = Except.ok resp)
    (heff : editEff (parseChain o.parse resp.toList) = eff) :
    (∀ k, k ≠ "success" → dHasKey eff k = false →
      dget? (edit_interaction o cur msg) k = dget? cur k) ∧
    (∀ k v, k ≠ "success" → dNodupKeys eff → dget? eff k = some v →
      dget? (edit_interaction o cur msg) k = some v) ∧
    dget? (edit_interaction o cur msg) "success" = some (Val.vbool true) ∧
    (eff = [] → ∀ k, k ≠ "success" →
      dget? (edit_interaction o cur msg) k = dget? cur k) := by
  have hkey : edit_interaction o cur msg =
      dset (pymerge cur eff) "success" (Val.vbool true) := by
    simp only [edit_interaction, hok, extract_json, heff]
  rw [hkey]
  refine ⟨?_, ?_, dget_dset_same _ _ _, ?_⟩
  · intro k hk hnot
    rw [dget_dset_other _ "success" k _ (Ne.symm hk)]
    exact dget_pymerge_notin eff cur k hnot
  · intro k v hk hnd hg
    rw [dget_dset_other _ "success" k _ (Ne.symm hk)]
    exact dget_pymerge_in eff cur k v hnd hg
  · intro he k hk
    subst he
    rw [dget_dset_other _ "success" k _ (Ne.symm hk), pymerge_nil]

/-- Witness for C3 on the spec's own example: editing only the sentiment
keeps the name and the shared materials and overwrites the sentiment. -/
theorem c3_edit_overlay_witness :
    dget? (edit_interaction c3Oracle c3Cur "sentiment was negative") "hcp_name" =
      dget? c3Cur "hcp_name" ∧
    dget? (edit_interaction c3Oracle c3Cur "sentiment was negative") "materials_shared" =
      dget? c3Cur "materials_shared" ∧
    dget? (edit_interaction c3Oracle c3Cur "sentiment was negative") "sentiment" =
      some (Val.vstr "Negative") := by
  have h := c3_edit_overlay c3Oracle c3Cur "sentiment was negative"
    "\x7b\"sentiment\":\"Negative\"\x7d" [("sentiment", Val.vstr "Negative")]
    rfl (by decide)
  exact ⟨h.1 "hcp_name" (by decide) (by decide),
         h.1 "materials_shared" (by decide) (by decide),
         h.2.1 "sentiment" (Val.vstr "Negative") (by decide) (by decide) (by decide)⟩

/-- C1 counterexample: a failing log tool records an error, so ok is
false, but the returned merged record is the empty record, not the
non-empty current record that was passed in. -/
theorem c1_counterexample :
    (process c1Oracle "met dr x" (some c1Cur)).success = false ∧
    (process c1Oracle "met dr x" (some c1Cur)).form_data = [] ∧
    (process c1Oracle "met dr x" (some c1Cur)).form_data ≠ c1Cur := by
  refine ⟨by decide, ?_, by decide⟩
  decide

/-- C1 as amended: ok is false exactly when a pipeline stage recorded an
error (or the run raised), and on failure the merged record never holds
new data: it is the current record (edit failures and process-level
exceptions) or the empty record (all other stage failures). -/
theorem c1_process_failure_contract (o : Oracle) (input : String) (cur? : Option PyDict) :
    ((process o input cur?).success = false ↔ pipelineErrored o input cur?) ∧
    ((process o input cur?).success = false →
      (process o input cur?).form_data = cur?.getD [] ∨
      (process o input cur?).form_data = []) := by
  simp only [process, pipelineErrored]
  cases hg : runGraph o input (cur?.getD []) with
  | error e =>
    exact ⟨by simp, fun _ => Or.inl rfl⟩
  | ok fs =>
    have hg2 : formatterNode (toolStep o (routerNode o (initState input (cur?.getD [])))) =
        Except.ok fs := hg
    obtain ⟨hfd, herr, _⟩ := formatterNode_ok_fields _ _ hg2
    constructor
    · simp
    · intro hfail
      have hne : fs.error ≠ "" := by
        simpa using hfail
      have hneT : (toolStep o (routerNode o (initState input (cur?.getD [])))).error ≠ "" :=
        herr ▸ hne
      show fs.form_data = cur?.getD [] ∨ fs.form_data = []
      obtain ⟨hcur, hout⟩ :=
        toolStep_outcome o (routerNode o (initState input (cur?.getD [])))
      cases horacle : o.routerLLM with
      | error e2 =>
        have hri : (routerNode o (initState input (cur?.getD []))).intent = "error" := by
          simp [routerNode, horacle]
        have ht : toolStep o (routerNode o (initState input (cur?.getD []))) =
            routerNode o (initState input (cur?.getD [])) := by
          simp only [toolStep, hri]
          rfl
        right
        rw [hfd, ht]
        simp [routerNode, horacle, initState]
      | ok resp =>
        have herr0 : (routerNode o (initState input (cur?.getD []))).error = "" := by
          simp [routerNode, horacle, initState]
        have hcur0 : (routerNode o (initState input (cur?.getD []))).current_form_data =
            cur?.getD [] := by
          simp [routerNode, horacle, initState]
        have hfd0 : (routerNode o (initState input (cur?.getD []))).form_data = [] := by
          simp [routerNode, horacle, initState]
        rcases hout with h | h | h
        · exact absurd (h.trans herr0) hneT
        · right
          rw [hfd, h, hfd0]
        · left
          rw [hfd, h, hcur0]

/-- Witness for C1 as amended, on the same failing run. -/
theorem c1_process_failure_contract_witness :
    (process c1Oracle "met dr x" (some c1Cur)).form_data = (some c1Cur).getD [] ∨
    (process c1Oracle "met dr x" (some c1Cur)).form_data = [] :=
  (c1_process_failure_contract c1Oracle "met dr x" (some c1Cur)).2 (by decide)

end HCPAgent
